import Mathlib

/-!
Verification of the MagiskSU client (`su.c`, function `su_client_main` and its
signal teardown handler `sighandler`).

The program is embedded shallowly: the client's single run is modelled as a pure
function from an environment (whether each standard stream is a terminal, the
daemon's admission decision and final status, the allocated pseudo-terminal
slave name, and the passwd database) to the exit code together with a trace of
the externally visible calls the client makes, in program order.  The signal
handler is modelled separately as a transition function on a small process
state (terminal raw mode, open standard streams, per-signal dispositions).

Constants and helpers that live in headers or sibling translation units
(`su.h`, `magisk.h`, `pts.c`, `utils`) are modelled from the specification and
carry a doc comment saying so.
-/

namespace MagiskSu

/-- Modelled from the spec: `ATTY_IN` bit of the terminal-attachment bitmask
(declared in `su.h`, which is not under `src/`). -/
def ATTY_IN : Nat := 1

/-- Modelled from the spec: `ATTY_OUT` bit of the terminal-attachment bitmask
(declared in `su.h`, which is not under `src/`). -/
def ATTY_OUT : Nat := 2

/-- Modelled from the spec: `ATTY_ERR` bit of the terminal-attachment bitmask
(declared in `su.h`, which is not under `src/`). -/
def ATTY_ERR : Nat := 4

/-- Modelled from the spec: the privileged/root user id, default target of an
elevation request (`UID_ROOT` in `magisk.h`, not under `src/`). -/
def UID_ROOT : Nat := 0

/-- Modelled from the spec: the dedicated denial exit code (`DENY` from the
policy enumeration in `su.h`, not under `src/`). -/
def DENY : Int := 1

/-- Modelled from the spec: the fixed-width request-type tag identifying an
elevation request to the daemon (`SUPERUSER` in `daemon.h`, not under `src/`).
The claims depend only on it being a fixed tag, not on its numeric value. -/
def SUPERUSER : Int := 2

/-- Modelled from the spec: the platform default shell (`DEFAULT_SHELL` in
`magisk.h`, not under `src/`). -/
def DEFAULT_SHELL : String := "/system/bin/sh"

/-- The request record assembled by the client: `struct su_request`.  Field
order `uid, login, keepenv, mount_master, shell, command` follows the
declaration order described by the spec (the struct itself is declared in
`su.h`, not under `src/`).  The four scalar fields are C `unsigned`. -/
structure su_request where
  uid : Nat
  login : Nat
  keepenv : Nat
  mount_master : Nat
  shell : String
  command : String
deriving DecidableEq

/-- The request initializer at the top of `su_client_main`:
uid = UID_ROOT, all flags clear, default shell, empty command. -/
def default_su_req : su_request :=
  { uid := UID_ROOT, login := 0, keepenv := 0, mount_master := 0,
    shell := DEFAULT_SHELL, command := "" }

/-- C `isspace` on the default locale, as consulted by `atoi`. -/
def c_isspace (c : Char) : Bool :=
  c = ' ' || c = '\t' || c = '\n' || c = '\x0b' || c = '\x0c' || c = '\r'

/-- Digit-accumulation loop of C `atoi`: consume leading decimal digits,
stop at the first non-digit. -/
def atoi_digits : List Char → Nat → Nat
  | [], acc => acc
  | c :: cs, acc =>
      if c.isDigit then atoi_digits cs (acc * 10 + (c.toNat - 48)) else acc

/-- Core of C `atoi` after leading whitespace is dropped: an optional single
sign followed by decimal digits; no digits yields 0. -/
def atoi_core (l : List Char) : Int :=
  match l with
  | [] => 0
  | c :: cs =>
      if c = '-' then - (atoi_digits cs 0 : Int)
      else if c = '+' then (atoi_digits cs 0 : Int)
      else (atoi_digits (c :: cs) 0 : Int)

/-- C `atoi`, called on the positional user argument when the passwd lookup
fails (libc, modelled by its standard semantics). -/
def atoi (s : String) : Int := atoi_core (s.data.dropWhile c_isspace)

/-- Whether a string begins (after optional C whitespace and an optional
single sign) with a decimal digit, i.e. whether C `atoi` can extract any
digits at all.  A string for which this is false is "malformed (non-numeric)"
in the sense of the spec. -/
def numeric_start_core (l : List Char) : Bool :=
  match l with
  | [] => false
  | c :: cs =>
      if c = '-' then
        match cs with
        | [] => false
        | c2 :: _ => c2.isDigit
      else if c = '+' then
        match cs with
        | [] => false
        | c2 :: _ => c2.isDigit
      else c.isDigit

/-- String-level version of `numeric_start_core`. -/
def numeric_start (s : String) : Bool := numeric_start_core (s.data.dropWhile c_isspace)

/-- C conversion of a (possibly negative) `int` to `unsigned`, as happens when
the `atoi` result is stored into the `unsigned uid` field. -/
def int_to_unsigned (i : Int) : Nat := (i % 4294967296).toNat

/-- Resolution of the user/uid positional argument (lines 176-184 of `su.c`):
`getpwnam` first, falling back to `atoi` on lookup failure. -/
def resolve_uid (lookup : String → Option Nat) (arg : String) : Nat :=
  match lookup arg with
  | some u => u
  | none => int_to_unsigned (atoi arg)

/-- Positional-argument processing of `su_client_main` (lines 171-184): a bare
leading "-" sets the login flag; the next positional, if any, resolves the
target uid. -/
def apply_positionals (lookup : String → Option Nat) (req : su_request)
    (args : List String) : su_request :=
  let step :=
    match args with
    | a :: rest => if a = "-" then ({ req with login := 1 }, rest) else (req, args)
    | [] => (req, ([] : List String))
  match step.2 with
  | a :: _ => { step.1 with uid := resolve_uid lookup a }
  | [] => step.1

/-- Modelled from the spec: `pts_open` (defined in `pts.c`, not under `src/`)
allocates a pseudo-terminal master and writes the slave device's filesystem
path into the caller's buffer.  The path names a device node under the
pseudo-terminal filesystem, hence is never the empty string. -/
def pts_open (name : String) : String := "/dev/pts/" ++ name

/-- Little-endian bytes of one fixed-width (32-bit) unsigned integer. -/
def le32 (n : Nat) : List Nat :=
  [n % 256, n / 256 % 256, n / 65536 % 256, n / 16777216 % 256]

/-- Modelled from the spec: the in-memory layout of the first four fields of
`struct su_request` (declared in `su.h`, not under `src/`): four fixed-width
unsigned integers in declaration order `uid, login, keepenv, mount_master`
with no padding, so `xwrite(fd, &su_req, 4 * sizeof(unsigned))` emits exactly
these sixteen bytes. -/
def su_req_scalar_bytes (r : su_request) : List Nat :=
  le32 (r.uid % 4294967296) ++ le32 (r.login % 4294967296) ++
  le32 (r.keepenv % 4294967296) ++ le32 (r.mount_master % 4294967296)

/-- The descriptors `su_client_main` can pass to `close`: the daemon
connection `fd` and the pseudo-terminal master `ptmx`. -/
inductive Desc where
  | conn
  | ptmx
deriving DecidableEq

/-- One externally visible call made by `su_client_main`, in program order.
`read_int_ack` is the `read_int` at the admission-decision call site,
`read_int_code` the one at the final-status call site. -/
inductive Event where
  | connect
  | write_int (v : Int)
  | write_bytes (bs : List Nat)
  | write_string (s : String)
  | isatty_q (fdno : Nat) (r : Bool)
  | pts_open (path : String)
  | send_fd (v : Int)
  | read_int_ack (v : Int)
  | fprintf_eacces
  | setup_sighandlers
  | pump_stdin_async
  | watch_sigwinch_async
  | pump_stdout_blocking
  | read_int_code (v : Int)
  | close (d : Desc)
deriving DecidableEq

/-- The run environment of one client invocation: terminal attachment of the
three standard streams, the allocated pseudo-terminal slave name, the daemon's
admission decision and final status, and the passwd database. -/
structure Env where
  isatty_in : Bool
  isatty_out : Bool
  isatty_err : Bool
  ptsName : String
  ack : Int
  code : Int
  getpwnam : String → Option Nat

/-- The terminal-attachment bitmask assembled at lines 201-204 of `su.c`. -/
def atty_mask (i o e : Bool) : Nat :=
  (if i then ATTY_IN else 0) ||| (if o then ATTY_OUT else 0) |||
  (if e then ATTY_ERR else 0)

/-- The request actually serialized onto the connection: the initializer plus
option effects (`req0`) with the positional arguments applied. -/
def sent_request (env : Env) (req0 : su_request) (args : List String) : su_request :=
  apply_positionals env.getpwnam req0 args

/-- Shallow embedding of `su_client_main` from line 171 onward (`req0` is the
request as left by the option loop; `args` is `argv[optind..]`).  Returns the
function's return value and the trace of external calls in program order. -/
def su_client_main (env : Env) (req0 : su_request) (args : List String) :
    Int × List Event :=
  let su_req := sent_request env req0 args
  let atty := atty_mask env.isatty_in env.isatty_out env.isatty_err
  let pts_slave := if atty ≠ 0 then pts_open env.ptsName else ""
  let pre : List Event :=
    [Event.connect, Event.write_int SUPERUSER,
     Event.write_bytes (su_req_scalar_bytes su_req),
     Event.write_string su_req.shell, Event.write_string su_req.command,
     Event.isatty_q 0 env.isatty_in, Event.isatty_q 1 env.isatty_out,
     Event.isatty_q 2 env.isatty_err] ++
    (if atty ≠ 0 then [Event.pts_open (pts_open env.ptsName)] else []) ++
    [Event.write_string pts_slave,
     Event.send_fd (if atty &&& ATTY_IN ≠ 0 then -1 else 0),
     Event.send_fd (if atty &&& ATTY_OUT ≠ 0 then -1 else 1),
     Event.send_fd (if atty &&& ATTY_ERR ≠ 0 then -1 else 2),
     Event.read_int_ack env.ack]
  if env.ack ≠ 0 then
    (DENY, pre ++ [Event.fprintf_eacces])
  else
    let relay : List Event :=
      (if atty &&& ATTY_IN ≠ 0 then
        [Event.setup_sighandlers, Event.pump_stdin_async] else []) ++
      (if atty &&& ATTY_OUT ≠ 0 then
        [Event.watch_sigwinch_async, Event.pump_stdout_blocking] else [])
    (env.code, pre ++ relay ++ [Event.read_int_code env.code, Event.close Desc.conn])

/-! ### Signal teardown (`quit_signals`, `sighandler`, `setup_sighandlers`) -/

/-- The fixed terminating-signal set of `su.c` line 32, by Linux signal number:
SIGALRM, SIGABRT, SIGHUP, SIGPIPE, SIGQUIT, SIGTERM, SIGINT (the terminating 0
sentinel of the C array is a list terminator, not a member). -/
def quit_signals : List Int := [14, 6, 1, 13, 3, 15, 2]

/-- Per-signal disposition: default, or the user-level teardown handler. -/
inductive Disp where
  | dfl
  | user
deriving DecidableEq

/-- The process state the teardown handler acts on: whether the controlling
terminal is still in raw mode, whether the client's copies of the three
standard streams are open, and each signal's disposition. -/
structure SigState where
  stdin_raw : Bool
  stdin_open : Bool
  stdout_open : Bool
  stderr_open : Bool
  disp : Int → Disp

/-- Modelled from the spec: `restore_stdin` (defined in `pts.c`, not under
`src/`) restores the real terminal to its original, pre-raw mode. -/
def restore_stdin (s : SigState) : SigState := { s with stdin_raw := false }

/-- The teardown handler `sighandler` of `su.c`: restore the terminal, close
the three standard streams, and reset every signal of `quit_signals` to the
default disposition. -/
def sighandler (s : SigState) : SigState :=
  let s1 := restore_stdin s
  let s2 := { s1 with stdin_open := false, stdout_open := false, stderr_open := false }
  { s2 with disp := fun g => if g ∈ quit_signals then Disp.dfl else s2.disp g }

/-- `setup_sighandlers` of `su.c`: install the given handler (always
`sighandler`, modelled as `Disp.user`) for every signal of `quit_signals`. -/
def setup_handlers_state (s : SigState) : SigState :=
  { s with disp := fun g => if g ∈ quit_signals then Disp.user else s.disp g }

/-- A process is alive with some signal state, or has been terminated. -/
inductive Proc where
  | alive (s : SigState)
  | dead

/-- Modelled from the spec: kernel delivery of one signal of the fixed
terminating set.  If the signal's disposition is the user handler, the handler
runs; if it is the default disposition, the process terminates (every signal
in the fixed set is fatal by default).  The boolean reports whether a
user-level handler ran. -/
def deliver : Proc → Int → Proc × Bool
  | Proc.dead, _ => (Proc.dead, false)
  | Proc.alive s, g =>
      match s.disp g with
      | Disp.user => (Proc.alive (sighandler s), true)
      | Disp.dfl => (Proc.dead, false)

/-! ### Trace observation helpers -/

/-- The byte-stream and descriptor messages the client writes to the
connection, in order (reads and non-connection calls are not messages). -/
inductive Msg where
  | int (v : Int)
  | bytes (bs : List Nat)
  | str (s : String)
  | fd (v : Int)
deriving DecidableEq

/-- Project one trace event to the connection message it writes, if any. -/
def msgOf : Event → Option Msg
  | Event.write_int v => some (Msg.int v)
  | Event.write_bytes bs => some (Msg.bytes bs)
  | Event.write_string s => some (Msg.str s)
  | Event.send_fd v => some (Msg.fd v)
  | _ => none

/-- The ordered list of messages a trace writes to the connection. -/
def sent_msgs (tr : List Event) : List Msg := tr.filterMap msgOf

/-- The ordered list of descriptors (or sentinels) transferred by a trace. -/
def sent_fds (tr : List Event) : List Int :=
  tr.filterMap fun e =>
    match e with
    | Event.send_fd v => some v
    | _ => none

/-- The ordered list of length-prefixed strings written by a trace. -/
def sent_strs (tr : List Event) : List String :=
  tr.filterMap fun e =>
    match e with
    | Event.write_string s => some s
    | _ => none

/-- The pseudo-terminal slave path a trace sends: the third string written
(after the shell and the command). -/
def sent_slave (tr : List Event) : Option String := (sent_strs tr)[2]?

def is_pts_open : Event → Bool
  | Event.pts_open _ => true
  | _ => false

def is_connect : Event → Bool
  | Event.connect => true
  | _ => false

def is_slave_write (p : String) : Event → Bool
  | Event.write_string s => s = p
  | _ => false

def is_send_fd : Event → Bool
  | Event.send_fd _ => true
  | _ => false

def is_relay_event : Event → Bool
  | Event.setup_sighandlers => true
  | Event.pump_stdin_async => true
  | Event.watch_sigwinch_async => true
  | Event.pump_stdout_blocking => true
  | _ => false

def is_read_code : Event → Bool
  | Event.read_int_code _ => true
  | _ => false

def is_pump_stdout : Event → Bool
  | Event.pump_stdout_blocking => true
  | _ => false

def is_read_ack : Event → Bool
  | Event.read_int_ack _ => true
  | _ => false

/-- Every `pts_open` event in the trace reports a non-empty slave path. -/
def pts_paths_nonempty (tr : List Event) : Bool :=
  tr.all fun e =>
    match e with
    | Event.pts_open p => p != ""
    | _ => true

/-- Index of the first event satisfying `p`, if any. -/
def first_idx (p : Event → Bool) : List Event → Option Nat
  | [] => none
  | e :: tr => if p e then some 0 else (first_idx p tr).map (· + 1)

/-- The first event satisfying `p` occurs strictly before the first event
satisfying `q` (false when either is absent). -/
def occurs_before (p q : Event → Bool) (tr : List Event) : Bool :=
  match first_idx p tr, first_idx q tr with
  | some i, some j => i < j
  | _, _ => false

/-- Every relay-starting event in the trace is preceded by a
`setup_sighandlers` event (scanning left to right; `seen` records whether the
handlers have been installed so far). -/
def relay_guarded (tr : List Event) (seen : Bool) : Bool :=
  match tr with
  | [] => true
  | Event.setup_sighandlers :: rest => relay_guarded rest true
  | Event.pump_stdin_async :: rest => seen && relay_guarded rest seen
  | Event.watch_sigwinch_async :: rest => seen && relay_guarded rest seen
  | Event.pump_stdout_blocking :: rest => seen && relay_guarded rest seen
  | _ :: rest => relay_guarded rest seen

/-! ### Bitmask lemmas -/

theorem mask_and_in (i o e : Bool) : atty_mask i o e &&& ATTY_IN ≠ 0 ↔ i = true := by
  cases i <;> cases o <;> cases e <;> decide

theorem mask_and_out (i o e : Bool) : atty_mask i o e &&& ATTY_OUT ≠ 0 ↔ o = true := by
  cases i <;> cases o <;> cases e <;> decide

theorem mask_and_err (i o e : Bool) : atty_mask i o e &&& ATTY_ERR ≠ 0 ↔ e = true := by
  cases i <;> cases o <;> cases e <;> decide

theorem mask_ne_zero (i o e : Bool) : atty_mask i o e ≠ 0 ↔ (i || o || e) = true := by
  cases i <;> cases o <;> cases e <;> decide

theorem pts_path_ne_empty (s : String) : pts_open s ≠ "" := by
  intro h
  have h2 : (pts_open s).data = "".data := congrArg String.data h
  simp [pts_open, String.data_append] at h2

/-! ### `atoi` lemmas -/

theorem atoi_core_eq_zero (l : List Char) (h : numeric_start_core l = false) :
    atoi_core l = 0 := by
  cases l with
  | nil => rfl
  | cons c cs =>
    by_cases h1 : c = '-'
    · cases cs with
      | nil => simp [atoi_core, h1, atoi_digits]
      | cons c2 cs2 =>
        have h2 : c2.isDigit = false := by simpa [numeric_start_core, h1] using h
        simp [atoi_core, h1, atoi_digits, h2]
    · by_cases h3 : c = '+'
      · cases cs with
        | nil => simp [atoi_core, h1, h3, atoi_digits]
        | cons c2 cs2 =>
          have h2 : c2.isDigit = false := by simpa [numeric_start_core, h1, h3] using h
          simp [atoi_core, h1, h3, atoi_digits, h2]
      · have h2 : c.isDigit = false := by simpa [numeric_start_core, h1, h3] using h
        simp [atoi_core, h1, h3, atoi_digits, h2]

/-- A malformed (non-numeric) argument makes C `atoi` return 0. -/
theorem atoi_eq_zero_of_malformed (s : String) (h : numeric_start s = false) :
    atoi s = 0 :=
  atoi_core_eq_zero _ h

/-- The user/uid positional argument of an invocation, if any: the first
positional, skipping the bare "-" login marker (lines 171-176 of `su.c`). -/
def user_arg : List String → Option String
  | [] => none
  | a :: rest => if a = "-" then rest.head? else some a

/-! ### Claims -/

/-- Claim C1: for each of the three standard streams independently, after the
admission handshake is assembled: a terminal-attached stream is transferred as
the sentinel -1 and the slave path sent is then non-empty; a non-terminal
stream is transferred as its real descriptor (0, 1, 2); when no stream is a
terminal the slave path sent is the empty string.  Descriptors go in the order
input, output, error. -/
theorem claim_c1_stream_descriptors (env : Env) (req0 : su_request) (args : List String) :
    sent_fds (su_client_main env req0 args).2 =
      [if env.isatty_in then -1 else 0,
       if env.isatty_out then -1 else 1,
       if env.isatty_err then -1 else 2] ∧
    sent_slave (su_client_main env req0 args).2 =
      some (if env.isatty_in || env.isatty_out || env.isatty_err
            then pts_open env.ptsName else "") ∧
    (sent_slave (su_client_main env req0 args).2 = some "" ↔
      (env.isatty_in || env.isatty_out || env.isatty_err) = false) := by
  obtain ⟨i, o, e, nm, ack, code, pw⟩ := env
  by_cases hack : ack ≠ 0 <;>
    cases i <;> cases o <;> cases e <;>
      simp [su_client_main, sent_fds, sent_slave, sent_strs, mask_and_in,
        mask_and_out, mask_and_err, mask_ne_zero, hack, pts_path_ne_empty]

/-- Claim C2: on every run exactly one elevation request is sent per
connection, and the ordered connection writes are: the fixed-width
request-type tag, then the four scalar fields (uid, login, keepenv,
mount_master) as four fixed-width unsigned integers — sixteen bytes, no
padding — then the shell and command strings, then the pseudo-terminal slave
path, then the three stream-descriptor messages. -/
theorem claim_c2_request_before_descriptors (env : Env) (req0 : su_request) (args : List String) :
    sent_msgs (su_client_main env req0 args).2 =
      [Msg.int SUPERUSER,
       Msg.bytes (su_req_scalar_bytes (sent_request env req0 args)),
       Msg.str (sent_request env req0 args).shell,
       Msg.str (sent_request env req0 args).command,
       Msg.str (if env.isatty_in || env.isatty_out || env.isatty_err
                then pts_open env.ptsName else ""),
       Msg.fd (if env.isatty_in then -1 else 0),
       Msg.fd (if env.isatty_out then -1 else 1),
       Msg.fd (if env.isatty_err then -1 else 2)] ∧
    (su_req_scalar_bytes (sent_request env req0 args)).length = 16 ∧
    (su_client_main env req0 args).2.countP
      (fun e => match e with | Event.write_bytes _ => true | _ => false) = 1 := by
  obtain ⟨i, o, e, nm, ack, code, pw⟩ := env
  by_cases hack : ack ≠ 0 <;>
    cases i <;> cases o <;> cases e <;>
      simp [su_client_main, sent_msgs, msgOf, mask_and_in, mask_and_out,
        mask_and_err, mask_ne_zero, hack, su_req_scalar_bytes, le32,
        List.countP_cons, List.countP_append]

/-- Claim C3: whenever the admission decision read from the daemon is nonzero,
the client reports the access-denied failure and returns the dedicated denial
exit code, starts no relay task (no input pump, no output pump, no resize
watcher, no handler installation), and performs no further read from the
connection — in particular the final status is never read. -/
theorem claim_c3_denial_fast_fail (env : Env) (req0 : su_request) (args : List String)
    (hden : env.ack ≠ 0) :
    (su_client_main env req0 args).1 = DENY ∧
    Event.fprintf_eacces ∈ (su_client_main env req0 args).2 ∧
    (su_client_main env req0 args).2.any is_relay_event = false ∧
    (su_client_main env req0 args).2.any is_read_code = false := by
  obtain ⟨i, o, e, nm, ack, code, pw⟩ := env
  cases i <;> cases o <;> cases e <;>
    simp [su_client_main, is_relay_event, is_read_code, mask_and_in,
      mask_and_out, mask_and_err, mask_ne_zero, hden]

/-- Claim C5: a pseudo-terminal session (master plus non-empty slave path) is
created if and only if at least one standard stream is attached to a real
terminal; when none is, no allocation occurs and the slave path sent is the
empty string. -/
theorem claim_c5_pty_iff_atty (env : Env) (req0 : su_request) (args : List String) :
    (su_client_main env req0 args).2.any is_pts_open =
      (env.isatty_in || env.isatty_out || env.isatty_err) ∧
    pts_paths_nonempty (su_client_main env req0 args).2 = true ∧
    sent_slave (su_client_main env req0 args).2 =
      some (if env.isatty_in || env.isatty_out || env.isatty_err
            then pts_open env.ptsName else "") := by
  obtain ⟨i, o, e, nm, ack, code, pw⟩ := env
  by_cases hack : ack ≠ 0 <;>
    cases i <;> cases o <;> cases e <;>
      simp [su_client_main, is_pts_open, pts_paths_nonempty, sent_slave,
        sent_strs, mask_and_in, mask_and_out, mask_and_err, mask_ne_zero,
        hack, pts_path_ne_empty]

/-- Claim C4: on every admitted run the final status integer is read only
after the admission decision has been read and only after the blocking output
pump call (which returns on end-of-stream of the pseudo-terminal master) has
returned — the output pump runs exactly when the output stream is a terminal,
and then it precedes the final read — and the integer so read is returned as
the client's own exit status.  The final-status read happens exactly once. -/
theorem claim_c4_final_status_ordering (env : Env) (req0 : su_request)
    (args : List String) (hadm : env.ack = 0) :
    (su_client_main env req0 args).1 = env.code ∧
    occurs_before is_read_ack is_read_code (su_client_main env req0 args).2 = true ∧
    (su_client_main env req0 args).2.any is_pump_stdout = env.isatty_out ∧
    (env.isatty_out = true →
      occurs_before is_pump_stdout is_read_code (su_client_main env req0 args).2 = true) ∧
    (su_client_main env req0 args).2.countP is_read_code = 1 := by
  obtain ⟨i, o, e, nm, ack, code, pw⟩ := env
  subst hadm
  cases i <;> cases o <;> cases e <;>
    simp [su_client_main, occurs_before, first_idx, is_read_ack, is_read_code,
      is_pump_stdout, mask_and_in, mask_and_out, mask_and_err, mask_ne_zero,
      List.countP_cons, List.countP_append]

/-- Claim C6: on the first delivery of any signal of the fixed terminating set
to an armed state, the handler runs: it restores the terminal's pre-raw mode,
closes the client's copies of the three standard streams, and resets every
signal of the fixed set to the default disposition; the transition is
one-directional, so a second delivery of any signal of the set is handled by
the default disposition, terminating the process with no user-level handler
running again. -/
theorem claim_c6_teardown_trips_once (s : SigState) (g g2 : Int)
    (hg : g ∈ quit_signals) (hg2 : g2 ∈ quit_signals)
    (harm : s.disp g = Disp.user) :
    deliver (Proc.alive s) g = (Proc.alive (sighandler s), true) ∧
    (sighandler s).stdin_raw = false ∧
    (sighandler s).stdin_open = false ∧
    (sighandler s).stdout_open = false ∧
    (sighandler s).stderr_open = false ∧
    (∀ g3 ∈ quit_signals, (sighandler s).disp g3 = Disp.dfl) ∧
    deliver (Proc.alive (sighandler s)) g2 = (Proc.dead, false) := by
  refine ⟨by simp [deliver, harm], rfl, rfl, rfl, rfl, ?_, ?_⟩
  · intro g3 hg3
    simp [sighandler, restore_stdin, hg3]
  · simp [deliver, sighandler, restore_stdin, hg2]

/-- A run in which only the output stream is a terminal and the daemon admits
the request. -/
def env_out_tty : Env :=
  { isatty_in := false, isatty_out := true, isatty_err := false,
    ptsName := "0", ack := 0, code := 0, getpwnam := fun _ => none }

/-- A run in which only the input stream is a terminal and the daemon admits
the request. -/
def env_in_tty : Env :=
  { isatty_in := true, isatty_out := false, isatty_err := false,
    ptsName := "1", ack := 0, code := 0, getpwnam := fun _ => none }

/-- Claim C7 counterexample: in the admitted run where only the output stream
is a terminal, a relay pump (the blocking output pump) and the resize watcher
start, yet no `setup_sighandlers` call precedes them — the teardown handler is
installed only when the input stream is a terminal, so the claim as stated is
false. -/
theorem claim_c7_counterexample :
    relay_guarded (su_client_main env_out_tty default_su_req []).2 false = false ∧
    (su_client_main env_out_tty default_su_req []).2.any is_pump_stdout = true := by
  decide

/-- Claim C7 (amended): in every admitted run in which the input pump is
started — that is, the input stream is a terminal — the teardown handler is
installed for the fixed terminating-signal set before any relay task starts. -/
theorem claim_c7_amended_input_pump_guarded (env : Env) (req0 : su_request)
    (args : List String) (hadm : env.ack = 0) (hin : env.isatty_in = true) :
    relay_guarded (su_client_main env req0 args).2 false = true ∧
    Event.pump_stdin_async ∈ (su_client_main env req0 args).2 := by
  obtain ⟨i, o, e, nm, ack, code, pw⟩ := env
  subst hadm
  subst hin
  cases o <;> cases e <;>
    simp [su_client_main, relay_guarded, mask_and_in, mask_and_out,
      mask_and_err, mask_ne_zero]

/-- Claim C8 counterexample: in the admitted run where the input stream is a
terminal, the connection to the daemon is opened strictly before the
pseudo-terminal is allocated (not after, as claimed), and the client never
closes the master descriptor (the only `close` in `su_client_main` is of the
connection descriptor). -/
theorem claim_c8_counterexample :
    occurs_before is_pts_open is_connect (su_client_main env_in_tty default_su_req []).2 = false ∧
    (su_client_main env_in_tty default_su_req []).2.any
      (fun e => e == Event.close Desc.ptmx) = false ∧
    (su_client_main env_in_tty default_su_req []).2.any is_pts_open = true := by
  decide

/-- Claim C8 (amended): on every run that needs a pseudo-terminal, the
PtySession is created after the stream-attachment probe and after the
connection to the daemon has been opened, but before the slave path and the
stream descriptors are sent; when the relay ends on an admitted run, the
client closes the connection descriptor after reading the final status (the
master descriptor is not explicitly closed). -/
theorem claim_c8_amended_pty_lifetime (env : Env) (req0 : su_request)
    (args : List String)
    (hatty : (env.isatty_in || env.isatty_out || env.isatty_err) = true) :
    occurs_before is_connect is_pts_open (su_client_main env req0 args).2 = true ∧
    occurs_before (fun e => e == Event.isatty_q 2 env.isatty_err) is_pts_open
      (su_client_main env req0 args).2 = true ∧
    occurs_before is_pts_open is_send_fd (su_client_main env req0 args).2 = true ∧
    sent_slave (su_client_main env req0 args).2 = some (pts_open env.ptsName) ∧
    (env.ack = 0 →
      (su_client_main env req0 args).2.reverse.take 2 =
        [Event.close Desc.conn, Event.read_int_code env.code]) := by
  obtain ⟨i, o, e, nm, ack, code, pw⟩ := env
  by_cases hack : ack ≠ 0 <;>
    cases i <;> cases o <;> cases e <;>
      simp_all [su_client_main, occurs_before, first_idx, is_connect,
        is_pts_open, is_send_fd, sent_slave, sent_strs, mask_and_in,
        mask_and_out, mask_and_err, mask_ne_zero]

/-- Claim C9: with a user-or-uid positional argument, the target uid of the
elevation request is resolved by name lookup first; on lookup failure the
argument is parsed with `atoi`, and a malformed (non-numeric) argument falls
back to zero rather than producing an error. -/
theorem claim_c9_uid_resolution (env : Env) (req0 : su_request) (args : List String)
    (a : String) (hu : user_arg args = some a) :
    (sent_request env req0 args).uid = resolve_uid env.getpwnam a ∧
    (∀ u, env.getpwnam a = some u → (sent_request env req0 args).uid = u) ∧
    (env.getpwnam a = none →
      (sent_request env req0 args).uid = int_to_unsigned (atoi a)) ∧
    (env.getpwnam a = none → numeric_start a = false →
      (sent_request env req0 args).uid = 0) := by
  have key : (sent_request env req0 args).uid = resolve_uid env.getpwnam a := by
    cases args with
    | nil => simp [user_arg] at hu
    | cons a0 rest =>
      by_cases h0 : a0 = "-"
      · subst h0
        simp [user_arg] at hu
        cases rest with
        | nil => simp at hu
        | cons a1 rest2 =>
          simp at hu
          subst hu
          simp [sent_request, apply_positionals]
      · simp [user_arg, h0] at hu
        subst hu
        simp [sent_request, apply_positionals, h0]
  refine ⟨key, ?_, ?_, ?_⟩
  · intro u hu2
    rw [key]
    simp [resolve_uid, hu2]
  · intro hn
    rw [key]
    simp [resolve_uid, hn]
  · intro hn hm
    rw [key]
    simp [resolve_uid, hn, atoi_eq_zero_of_malformed _ hm, int_to_unsigned]

/-- Claim C10: in an admitted run where only the error stream is a terminal,
the client allocates a pseudo-terminal, sends its non-empty slave path and the
sentinel for the error stream (the real descriptors 0 and 1 for input and
output), starts no input pump, no output pump and no resize watcher, installs
no teardown handler, and proceeds directly to read the final status, which it
returns. -/
theorem claim_c10_err_only_no_relay (env : Env) (req0 : su_request) (args : List String)
    (hin : env.isatty_in = false) (hout : env.isatty_out = false)
    (herr : env.isatty_err = true) (hadm : env.ack = 0) :
    (su_client_main env req0 args).2.any is_pts_open = true ∧
    sent_slave (su_client_main env req0 args).2 = some (pts_open env.ptsName) ∧
    pts_open env.ptsName ≠ "" ∧
    sent_fds (su_client_main env req0 args).2 = [0, 1, -1] ∧
    (su_client_main env req0 args).2.any is_relay_event = false ∧
    (su_client_main env req0 args).2.reverse.take 2 =
      [Event.close Desc.conn, Event.read_int_code env.code] ∧
    (su_client_main env req0 args).1 = env.code := by
  obtain ⟨i, o, e, nm, ack, code, pw⟩ := env
  subst hin
  subst hout
  subst herr
  subst hadm
  simp [su_client_main, is_pts_open, sent_slave, sent_strs, sent_fds,
    is_relay_event, mask_and_in, mask_and_out, mask_and_err, mask_ne_zero,
    pts_path_ne_empty]

/-! ### Concrete runs used as witnesses -/

/-- A run the daemon denies. -/
def env_denied : Env :=
  { isatty_in := true, isatty_out := true, isatty_err := true,
    ptsName := "4", ack := 1, code := 0, getpwnam := fun _ => none }

/-- An admitted run with no terminal attached. -/
def env_no_tty : Env :=
  { isatty_in := false, isatty_out := false, isatty_err := false,
    ptsName := "", ack := 0, code := 7, getpwnam := fun _ => none }

/-- An admitted run where only the error stream is a terminal. -/
def env_err_tty : Env :=
  { isatty_in := false, isatty_out := false, isatty_err := true,
    ptsName := "2", ack := 0, code := 5, getpwnam := fun _ => none }

/-- A fully armed teardown state: terminal in raw mode, streams open, every
signal bound to the user-level handler. -/
def armed0 : SigState :=
  { stdin_raw := true, stdin_open := true, stdout_open := true,
    stderr_open := true, disp := fun _ => Disp.user }

theorem claim_c3_witness :
    env_denied.ack ≠ 0 ∧
    ((su_client_main env_denied default_su_req []).1 = DENY ∧
     Event.fprintf_eacces ∈ (su_client_main env_denied default_su_req []).2 ∧
     (su_client_main env_denied default_su_req []).2.any is_relay_event = false ∧
     (su_client_main env_denied default_su_req []).2.any is_read_code = false) :=
  ⟨by decide, claim_c3_denial_fast_fail env_denied default_su_req [] (by decide)⟩

theorem claim_c4_witness :
    env_out_tty.ack = 0 ∧
    ((su_client_main env_out_tty default_su_req []).1 = env_out_tty.code ∧
     occurs_before is_read_ack is_read_code
       (su_client_main env_out_tty default_su_req []).2 = true ∧
     (su_client_main env_out_tty default_su_req []).2.any is_pump_stdout =
       env_out_tty.isatty_out ∧
     (env_out_tty.isatty_out = true →
       occurs_before is_pump_stdout is_read_code
         (su_client_main env_out_tty default_su_req []).2 = true) ∧
     (su_client_main env_out_tty default_su_req []).2.countP is_read_code = 1) :=
  ⟨rfl, claim_c4_final_status_ordering env_out_tty default_su_req [] rfl⟩

theorem claim_c6_witness :
    ((2 : Int) ∈ quit_signals ∧ (15 : Int) ∈ quit_signals ∧
      armed0.disp 2 = Disp.user) ∧
    (deliver (Proc.alive armed0) 2 = (Proc.alive (sighandler armed0), true) ∧
     (sighandler armed0).stdin_raw = false ∧
     (sighandler armed0).stdin_open = false ∧
     (sighandler armed0).stdout_open = false ∧
     (sighandler armed0).stderr_open = false ∧
     (∀ g3 ∈ quit_signals, (sighandler armed0).disp g3 = Disp.dfl) ∧
     deliver (Proc.alive (sighandler armed0)) 15 = (Proc.dead, false)) :=
  ⟨⟨by decide, by decide, rfl⟩,
    claim_c6_teardown_trips_once armed0 2 15 (by decide) (by decide) rfl⟩

theorem claim_c7_amended_witness :
    env_in_tty.ack = 0 ∧ env_in_tty.isatty_in = true ∧
    (relay_guarded (su_client_main env_in_tty default_su_req []).2 false = true ∧
     Event.pump_stdin_async ∈ (su_client_main env_in_tty default_su_req []).2) :=
  ⟨rfl, rfl, claim_c7_amended_input_pump_guarded env_in_tty default_su_req [] rfl rfl⟩

theorem claim_c8_amended_witness :
    (env_in_tty.isatty_in || env_in_tty.isatty_out || env_in_tty.isatty_err) = true ∧
    (occurs_before is_connect is_pts_open
       (su_client_main env_in_tty default_su_req []).2 = true ∧
     occurs_before (fun e => e == Event.isatty_q 2 env_in_tty.isatty_err) is_pts_open
       (su_client_main env_in_tty default_su_req []).2 = true ∧
     occurs_before is_pts_open is_send_fd
       (su_client_main env_in_tty default_su_req []).2 = true ∧
     sent_slave (su_client_main env_in_tty default_su_req []).2 =
       some (pts_open env_in_tty.ptsName) ∧
     (env_in_tty.ack = 0 →
       (su_client_main env_in_tty default_su_req []).2.reverse.take 2 =
         [Event.close Desc.conn, Event.read_int_code env_in_tty.code])) :=
  ⟨rfl, claim_c8_amended_pty_lifetime env_in_tty default_su_req [] rfl⟩

theorem claim_c9_witness :
    user_arg ["xyz"] = some "xyz" ∧
    env_no_tty.getpwnam "xyz" = none ∧
    numeric_start "xyz" = false ∧
    (sent_request env_no_tty default_su_req ["xyz"]).uid = 0 :=
  ⟨by decide, rfl, by decide,
    (claim_c9_uid_resolution env_no_tty default_su_req ["xyz"] "xyz"
      (by decide)).2.2.2 rfl (by decide)⟩

theorem claim_c10_witness :
    env_err_tty.isatty_in = false ∧ env_err_tty.isatty_out = false ∧
    env_err_tty.isatty_err = true ∧ env_err_tty.ack = 0 ∧
    ((su_client_main env_err_tty default_su_req []).2.any is_pts_open = true ∧
     sent_slave (su_client_main env_err_tty default_su_req []).2 =
       some (pts_open env_err_tty.ptsName) ∧
     pts_open env_err_tty.ptsName ≠ "" ∧
     sent_fds (su_client_main env_err_tty default_su_req []).2 = [0, 1, -1] ∧
     (su_client_main env_err_tty default_su_req []).2.any is_relay_event = false ∧
     (su_client_main env_err_tty default_su_req []).2.reverse.take 2 =
       [Event.close Desc.conn, Event.read_int_code env_err_tty.code] ∧
     (su_client_main env_err_tty default_su_req []).1 = env_err_tty.code) :=
  ⟨rfl, rfl, rfl, rfl,
    claim_c10_err_only_no_relay env_err_tty default_su_req [] rfl rfl rfl rfl⟩

end MagiskSu
